import Mathlib

/-!
Verification of the layered Cosmos DB object model (`src/azure/cosmos/__init__.py`,
`src/prototype/client.py`, `src/mock_two/client.py`) against its specification.

The facade layer is embedded directly from the Python sources: request-option
dictionaries become association lists built in the source's statement order,
Python `None`-checks become `Option` matches, Python truthiness checks on strings
and dicts become emptiness checks, and calls that can raise become `Except`.
The cross-partition query executor lives inside the wrapped internal client,
which is not part of the sources; it is modelled from the specification where a
claim depends on it, and each such definition says so in its doc comment.
-/

namespace Cosmos

/-- Values that can appear in a request-option dictionary or resource definition. -/
inductive OptVal where
  | b (v : Bool)
  | s (v : String)
  | i (v : Int)
  | hs (v : List (String × String))
  deriving DecidableEq

/-- Embeds the source pattern `if x is not None: request_options[k] = x` for a
Bool-valued option (e.g. `disableRUPerMinuteUsage`, `populateQueryMetrics`). -/
def optEntryB (k : String) : Option Bool → List (String × OptVal)
  | some v => [(k, OptVal.b v)]
  | none => []

/-- Embeds the source pattern `if x is not None: request_options[k] = x` for an
integer option (e.g. `maxDegreeOfParallelism`, `maxItemCount`). -/
def optEntryI (k : String) : Option Int → List (String × OptVal)
  | some v => [(k, OptVal.i v)]
  | none => []

/-- Embeds the source pattern `if x: request_options[k] = x` for a string option:
Python truthiness omits both `None` and the empty string (e.g. `sessionToken`). -/
def optEntryStr (k : String) : Option String → List (String × OptVal)
  | some v => if v = "" then [] else [(k, OptVal.s v)]
  | none => []

/-- Embeds the source pattern `if x: request_options[k] = x` for a dict-valued
option: Python truthiness omits both `None` and the empty dict
(e.g. `initialHeaders`, `accessCondition`). -/
def optEntryDict (k : String) : Option (List (String × String)) → List (String × OptVal)
  | some v => if v = [] then [] else [(k, OptVal.hs v)]
  | none => []

/-- Embeds the dict-comprehension filter `if value is not None` used by
`set_container_properties` when building the replacement definition. -/
def optEntryVal (k : String) : Option OptVal → List (String × OptVal)
  | some v => [(k, v)]
  | none => []

/-- Embeds the source pattern `if x: definition[k] = x` for an integer field:
Python truthiness omits `None` and also `0` (`create_container`'s `default_ttl`). -/
def optEntryIntTruthy (k : String) : Option Int → List (String × OptVal)
  | some v => if v = 0 then [] else [(k, OptVal.i v)]
  | none => []

/-- Keyword arguments of `CosmosClient.get_database`
(`src/azure/cosmos/__init__.py` lines 161-168). -/
structure GetDatabaseOptions where
  disable_ru_per_minute_usage : Option Bool
  session_token : Option String
  initial_headers : Option (List (String × String))
  populate_query_metrics : Option Bool
  deriving DecidableEq

/-- Embeds the `request_options` construction of `CosmosClient.get_database`
(`src/azure/cosmos/__init__.py` lines 180-188), entries in source statement order. -/
def composeGetDatabase (o : GetDatabaseOptions) : List (String × OptVal) :=
  optEntryB "disableRUPerMinuteUsage" o.disable_ru_per_minute_usage
    ++ optEntryStr "sessionToken" o.session_token
    ++ optEntryDict "initialHeaders" o.initial_headers
    ++ optEntryB "populateQueryMetrics" o.populate_query_metrics

/-- Keyword arguments of `Container.query_items`
(`src/azure/cosmos/__init__.py` lines 869-881). -/
structure QueryItemsOptions where
  disable_ru_per_minute_usage : Option Bool
  enable_cross_partition_query : Option Bool
  max_degree_parallelism : Option Int
  max_item_count : Option Int
  session_token : Option String
  initial_headers : Option (List (String × String))
  populate_query_metrics : Option Bool
  deriving DecidableEq

/-- Embeds the `request_options` construction of `Container.query_items`
(`src/azure/cosmos/__init__.py` lines 916-930), entries in source statement order. -/
def composeQueryItems (o : QueryItemsOptions) : List (String × OptVal) :=
  optEntryB "disableRUPerMinuteUsage" o.disable_ru_per_minute_usage
    ++ optEntryB "enableCrossPartitionQuery" o.enable_cross_partition_query
    ++ optEntryI "maxDegreeOfParallelism" o.max_degree_parallelism
    ++ optEntryI "maxItemCount" o.max_item_count
    ++ optEntryStr "sessionToken" o.session_token
    ++ optEntryDict "initialHeaders" o.initial_headers
    ++ optEntryB "populateQueryMetrics" o.populate_query_metrics

/-- Response headers as returned by the transport: an association list looked up
with Python `dict.get` / `dict[...]` semantics. -/
def headerLookup (headers : List (String × String)) (k : String) : Option String :=
  headers.lookup k

/-- Embeds the session-token update of `Container.get_item`
(`src/azure/cosmos/__init__.py` lines 814-816):
`self.session_token = headers.get("x-ms-session-token", self.session_token)`. -/
def get_item_observe (stored : Option String) (headers : List (String × String)) :
    Option String :=
  match headerLookup headers "x-ms-session-token" with
  | some t => some t
  | none => stored

/-- Python `KeyError`, raised by a bare `headers[...]` subscript on a missing key. -/
inductive PyKeyErr where
  | keyError
  deriving DecidableEq

/-- Embeds the tail of `Container.query_items`
(`src/azure/cosmos/__init__.py` lines 940-943): the new session token is read with
`headers["x-ms-session-token"]` (raising `KeyError` when absent) before the
result iterator is built and returned. -/
def query_items_finish (headers : List (String × String)) (items : List Int) :
    Except PyKeyErr (String × List Int) :=
  match headerLookup headers "x-ms-session-token" with
  | none => Except.error PyKeyErr.keyError
  | some t => Except.ok (t, items)

/-- Argument of `CosmosClient._get_database_link`: a raw id string, an object
exposing a stored `database_link`, or a dict carrying an `"id"` key. -/
inductive DatabaseRef where
  | byId (id : String)
  | byObj (database_link : String)
  | byDict (id : String)
  deriving DecidableEq

/-- Embeds `CosmosClient._get_database_link` (`src/azure/cosmos/__init__.py`
lines 111-124): a string becomes `"dbs/" + id`, an object's stored link is
returned verbatim, a dict's `"id"` is interpolated the same way as a string. -/
def get_database_link : DatabaseRef → String
  | DatabaseRef.byId i => "dbs/" ++ i
  | DatabaseRef.byObj l => l
  | DatabaseRef.byDict i => "dbs/" ++ i

/-- Argument of `Container._get_document_link`: a raw id string or an `Item`
carrying its server-assigned `"_self"` link. -/
inductive ItemRef where
  | byId (id : String)
  | byItem (self_link : String)
  deriving DecidableEq

/-- Embeds `Container._get_document_link` (`src/azure/cosmos/__init__.py`
lines 770-775): a string becomes `collection_link + "/docs/" + id`, an `Item`'s
stored `"_self"` link is returned verbatim. -/
def get_document_link (collection_link : String) : ItemRef → String
  | ItemRef.byId i => collection_link ++ "/docs/" ++ i
  | ItemRef.byItem l => l

/-- Outcome of `Client.create_database`: either the freshly created database or
the result of the fallback `get_database` read. -/
inductive CreateDbOutcome where
  | created (id : String)
  | readFallback (id : String)
  deriving DecidableEq

/-- Embeds `Client.create_database` of `src/prototype/client.py` lines 94-117
(identical logic in `src/mock_two/client.py` lines 15-22): the create call's
`HTTPFailure` is re-raised only when `fail_if_exists` holds and the status is
409; every other failure falls through to `return self.get_database(id)`, whose
own result (or failure) is returned. Failures carry their HTTP status code. -/
def create_database (fail_if_exists : Bool) (createResult : Except Nat String)
    (readResult : Except Nat String) : Except Nat CreateDbOutcome :=
  match createResult with
  | Except.ok d => Except.ok (CreateDbOutcome.created d)
  | Except.error status =>
    if fail_if_exists && status == 409 then Except.error status
    else readResult.map CreateDbOutcome.readFallback

/-- Python `TypeError`, raised by `int(None)`. -/
inductive PyErr where
  | typeError
  deriving DecidableEq

/-- Embeds Python `int(x)` applied to an optional integer argument: `int(None)`
raises `TypeError`; an integer passes through unchanged. -/
def pyInt : Option Int → Except PyErr Int
  | none => Except.error PyErr.typeError
  | some n => Except.ok n

/-- Embeds the `parameters` dict built by `Database.set_container_properties`
(`src/azure/cosmos/__init__.py` lines 672-682): `int(default_ttl)` is evaluated
unconditionally while building the dict, then entries with value `None` are
filtered out. The `id` entry is always present and `defaultTtl` is always
present once `int` has succeeded. -/
def setContainerPropertiesParams (container_id : String) (partition_key : Option OptVal)
    (indexing_policy : Option OptVal) (default_ttl : Option Int)
    (conflict_resolution_policy : Option OptVal) : Except PyErr (List (String × OptVal)) :=
  match pyInt default_ttl with
  | Except.error e => Except.error e
  | Except.ok ttl =>
    Except.ok ([("id", OptVal.s container_id)]
      ++ optEntryVal "partitionKey" partition_key
      ++ optEntryVal "indexingPolicy" indexing_policy
      ++ [("defaultTtl", OptVal.i ttl)]
      ++ optEntryVal "conflictResolutionPolicy" conflict_resolution_policy)

/-- Embeds the container `definition` dict built by `Database.create_container`
(`src/azure/cosmos/__init__.py` lines 430-436): each field is added under
`if field:`, so Python truthiness omits `None`, and omits `0` for `default_ttl`.
A supplied `PartitionKey` dict always carries `paths` and `kind`, hence is
truthy, so the partition-key check reduces to presence. -/
def createContainerDefinition (id : String) (partition_key : Option OptVal)
    (indexing_policy : Option (List (String × String))) (default_ttl : Option Int) :
    List (String × OptVal) :=
  [("id", OptVal.s id)]
    ++ optEntryVal "partitionKey" partition_key
    ++ optEntryDict "indexingPolicy" indexing_policy
    ++ optEntryIntTruthy "defaultTtl" default_ttl

/-- Keyword arguments of `Database.create_container`
(`src/azure/cosmos/__init__.py` lines 385-396) that feed `request_options`. -/
structure CreateContainerOptions where
  disable_ru_per_minute_usage : Option Bool
  session_token : Option String
  initial_headers : Option (List (String × String))
  access_condition : Option (List (String × String))
  populate_query_metrics : Option Bool
  deriving DecidableEq

/-- Embeds the `request_options` construction of `Database.create_container`
(`src/azure/cosmos/__init__.py` lines 438-448), entries in source statement order. -/
def composeCreateContainer (o : CreateContainerOptions) : List (String × OptVal) :=
  optEntryB "disableRUPerMinuteUsage" o.disable_ru_per_minute_usage
    ++ optEntryStr "sessionToken" o.session_token
    ++ optEntryDict "initialHeaders" o.initial_headers
    ++ optEntryDict "accessCondition" o.access_condition
    ++ optEntryB "populateQueryMetrics" o.populate_query_metrics

/-- Embeds Python `dict.update`: keys already in `base` keep their position and
take the value from `upd`; keys new in `upd` are appended in `upd`'s order. -/
def dictUpdate (base upd : List (String × OptVal)) : List (String × OptVal) :=
  base.map (fun kv => (kv.1, match upd.lookup kv.1 with | some v => v | none => kv.2))
    ++ upd.filter (fun kv => (base.lookup kv.1).isNone)

/-- Embeds `Database.create_container` of `src/prototype/client.py` lines 182-198:
`definition = dict(id=id); definition.update(kwargs)` — every keyword argument
is copied into the container definition handed to the transport, unvalidated. -/
def prototypeCreateContainerDefinition (id : String) (kwargs : List (String × OptVal)) :
    List (String × OptVal) :=
  dictUpdate [("id", OptVal.s id)] kwargs

/-- Container wrapper built by the prototype facade from a raw id. -/
structure ProtoContainer where
  id : String
  deriving DecidableEq

/-- Embeds Python truthiness of the optional `query` argument (`if query:`):
`None` and the empty string are falsy. -/
def pyTruthy : Option String → Bool
  | some s => !(s = "")
  | none => false

/-- Embeds `Database.list_containers` of `src/prototype/client.py` lines 230-244:
both the truthy-`query` branch and the else branch run the same comprehension
over the unfiltered `ReadContainers(database_link)` transport call. -/
def list_containers (query : Option String) (read_containers : List String) :
    List ProtoContainer :=
  if pyTruthy query then read_containers.map ProtoContainer.mk
  else read_containers.map ProtoContainer.mk

/-- Embeds `Database.list_collections` of `src/mock_two/client.py` lines 68-74:
the `query` parameter is accepted but never used; the body always iterates the
unfiltered `ReadContainers` transport call. -/
def list_collections (_query : Option String) (read_containers : List String) :
    List ProtoContainer :=
  read_containers.map ProtoContainer.mk

/-- Modelled from the spec: the QueryExecutor's ORDER BY drain (spec section 4.4,
Draining) — the executor itself lives in the wrapped internal client, which is
absent from the sources. Per-partition already-sorted pages are combined by a
k-way merge on the order key; the left-biased cascade of binary merges realises
the deterministic tie-break by partition order. -/
def kMerge (partitions : List (List Int)) : List Int :=
  partitions.foldr (fun p acc => p.merge acc (fun a b => decide (a ≤ b))) []

/-- Modelled from the spec: the failure raised by the QueryExecutor's planning
phase (spec section 4.4, Planning) when neither a partition key nor
cross-partition execution is given. -/
inductive QueryFailure where
  | crossPartitionRequired
  deriving DecidableEq

/-- Decidable equality for `Except`, needed to evaluate claims on concrete
transport outcomes. -/
instance exceptDecEq {ε α : Type} [DecidableEq ε] [DecidableEq α] :
    DecidableEq (Except ε α) := fun a b =>
  match a, b with
  | Except.ok x, Except.ok y =>
    if h : x = y then isTrue (by rw [h]) else isFalse (fun hh => h (Except.ok.inj hh))
  | Except.error x, Except.error y =>
    if h : x = y then isTrue (by rw [h]) else isFalse (fun hh => h (Except.error.inj hh))
  | Except.ok _, Except.error _ => isFalse (fun hh => Except.noConfusion hh)
  | Except.error _, Except.ok _ => isFalse (fun hh => Except.noConfusion hh)

/-- Result of one query run: the drained items (or the planning failure) together
with the number of Transport calls the executor issued. -/
structure QueryRun where
  result : Except QueryFailure (List Int)
  transportCalls : Nat
  deriving DecidableEq

/-- Modelled from the spec: QueryExecutor planning and draining (spec section
4.4) — absent from the sources, which only forward to the wrapped internal
client's `QueryItems`. With an explicit partition key the plan targets exactly
one partition (one Transport page call). Without one, cross-partition execution
must have been explicitly enabled, otherwise the executor fails fast with
`CrossPartitionRequired` before issuing any Transport call. In cross-partition
mode one page call is issued per partition and the drain is the k-way merge for
ORDER BY queries, plain concatenation otherwise. -/
def runQuery (selectPartition : String → List Int) (partition_key : Option String)
    (enable_cross_partition : Bool) (order_by : Bool) (partitions : List (List Int)) :
    QueryRun :=
  match partition_key with
  | some k => QueryRun.mk (Except.ok (selectPartition k)) 1
  | none =>
    if enable_cross_partition then
      QueryRun.mk
        (Except.ok (if order_by then kMerge partitions else partitions.flatten))
        partitions.length
    else
      QueryRun.mk (Except.error QueryFailure.crossPartitionRequired) 0

/-- Any key appearing in an `optEntryB` entry is the entry's own key. -/
theorem mem_keys_optEntryB {j k : String} {o : Option Bool}
    (h : j ∈ (optEntryB k o).map Prod.fst) : j = k := by
  cases o with
  | none => simp [optEntryB] at h
  | some v => simpa [optEntryB] using h

/-- An `optEntryB` entry is only produced from a present option. -/
theorem optEntryB_ne_none {j k : String} {o : Option Bool}
    (h : j ∈ (optEntryB k o).map Prod.fst) : o ≠ none := by
  intro hn
  rw [hn] at h
  simp [optEntryB] at h

/-- Any key appearing in an `optEntryI` entry is the entry's own key. -/
theorem mem_keys_optEntryI {j k : String} {o : Option Int}
    (h : j ∈ (optEntryI k o).map Prod.fst) : j = k := by
  cases o with
  | none => simp [optEntryI] at h
  | some v => simpa [optEntryI] using h

/-- An `optEntryI` entry is only produced from a present option. -/
theorem optEntryI_ne_none {j k : String} {o : Option Int}
    (h : j ∈ (optEntryI k o).map Prod.fst) : o ≠ none := by
  intro hn
  rw [hn] at h
  simp [optEntryI] at h

/-- Any key appearing in an `optEntryStr` entry is the entry's own key. -/
theorem mem_keys_optEntryStr {j k : String} {o : Option String}
    (h : j ∈ (optEntryStr k o).map Prod.fst) : j = k := by
  cases o with
  | none => simp [optEntryStr] at h
  | some v =>
    by_cases hv : v = ""
    · simp [optEntryStr, hv] at h
    · simpa [optEntryStr, hv] using h

/-- An `optEntryStr` entry is only produced from a present option. -/
theorem optEntryStr_ne_none {j k : String} {o : Option String}
    (h : j ∈ (optEntryStr k o).map Prod.fst) : o ≠ none := by
  intro hn
  rw [hn] at h
  simp [optEntryStr] at h

/-- Any key appearing in an `optEntryDict` entry is the entry's own key. -/
theorem mem_keys_optEntryDict {j k : String} {o : Option (List (String × String))}
    (h : j ∈ (optEntryDict k o).map Prod.fst) : j = k := by
  cases o with
  | none => simp [optEntryDict] at h
  | some v =>
    by_cases hv : v = []
    · simp [optEntryDict, hv] at h
    · simpa [optEntryDict, hv] using h

/-- An `optEntryDict` entry is only produced from a present option. -/
theorem optEntryDict_ne_none {j k : String} {o : Option (List (String × String))}
    (h : j ∈ (optEntryDict k o).map Prod.fst) : o ≠ none := by
  intro hn
  rw [hn] at h
  simp [optEntryDict] at h

/-- Every key of a composed `query_items` option set names one of the seven
recognized options, and that option was present in the call. -/
theorem mem_keys_composeQueryItems {j : String} {o : QueryItemsOptions}
    (h : j ∈ (composeQueryItems o).map Prod.fst) :
    (j = "disableRUPerMinuteUsage" ∧ o.disable_ru_per_minute_usage ≠ none) ∨
    (j = "enableCrossPartitionQuery" ∧ o.enable_cross_partition_query ≠ none) ∨
    (j = "maxDegreeOfParallelism" ∧ o.max_degree_parallelism ≠ none) ∨
    (j = "maxItemCount" ∧ o.max_item_count ≠ none) ∨
    (j = "sessionToken" ∧ o.session_token ≠ none) ∨
    (j = "initialHeaders" ∧ o.initial_headers ≠ none) ∨
    (j = "populateQueryMetrics" ∧ o.populate_query_metrics ≠ none) := by
  simp only [composeQueryItems, List.map_append, List.mem_append] at h
  rcases h with ((((((h | h) | h) | h) | h) | h) | h)
  · exact Or.inl ⟨mem_keys_optEntryB h, optEntryB_ne_none h⟩
  · exact Or.inr (Or.inl ⟨mem_keys_optEntryB h, optEntryB_ne_none h⟩)
  · exact Or.inr (Or.inr (Or.inl ⟨mem_keys_optEntryI h, optEntryI_ne_none h⟩))
  · exact Or.inr (Or.inr (Or.inr (Or.inl ⟨mem_keys_optEntryI h, optEntryI_ne_none h⟩)))
  · exact Or.inr (Or.inr (Or.inr (Or.inr (Or.inl
      ⟨mem_keys_optEntryStr h, optEntryStr_ne_none h⟩))))
  · exact Or.inr (Or.inr (Or.inr (Or.inr (Or.inr (Or.inl
      ⟨mem_keys_optEntryDict h, optEntryDict_ne_none h⟩)))))
  · exact Or.inr (Or.inr (Or.inr (Or.inr (Or.inr (Or.inr
      ⟨mem_keys_optEntryB h, optEntryB_ne_none h⟩)))))

/-- Every key of a composed `get_database` option set names one of the four
recognized options, and that option was present in the call. -/
theorem mem_keys_composeGetDatabase {j : String} {o : GetDatabaseOptions}
    (h : j ∈ (composeGetDatabase o).map Prod.fst) :
    (j = "disableRUPerMinuteUsage" ∧ o.disable_ru_per_minute_usage ≠ none) ∨
    (j = "sessionToken" ∧ o.session_token ≠ none) ∨
    (j = "initialHeaders" ∧ o.initial_headers ≠ none) ∨
    (j = "populateQueryMetrics" ∧ o.populate_query_metrics ≠ none) := by
  simp only [composeGetDatabase, List.map_append, List.mem_append] at h
  rcases h with (((h | h) | h) | h)
  · exact Or.inl ⟨mem_keys_optEntryB h, optEntryB_ne_none h⟩
  · exact Or.inr (Or.inl ⟨mem_keys_optEntryStr h, optEntryStr_ne_none h⟩)
  · exact Or.inr (Or.inr (Or.inl ⟨mem_keys_optEntryDict h, optEntryDict_ne_none h⟩))
  · exact Or.inr (Or.inr (Or.inr ⟨mem_keys_optEntryB h, optEntryB_ne_none h⟩))

/-- Every key of a composed `create_container` option set names one of the five
recognized options. -/
theorem mem_keys_composeCreateContainer {j : String} {o : CreateContainerOptions}
    (h : j ∈ (composeCreateContainer o).map Prod.fst) :
    j = "disableRUPerMinuteUsage" ∨ j = "sessionToken" ∨ j = "initialHeaders" ∨
      j = "accessCondition" ∨ j = "populateQueryMetrics" := by
  simp only [composeCreateContainer, List.map_append, List.mem_append] at h
  rcases h with ((((h | h) | h) | h) | h)
  · exact Or.inl (mem_keys_optEntryB h)
  · exact Or.inr (Or.inl (mem_keys_optEntryStr h))
  · exact Or.inr (Or.inr (Or.inl (mem_keys_optEntryDict h)))
  · exact Or.inr (Or.inr (Or.inr (Or.inl (mem_keys_optEntryDict h))))
  · exact Or.inr (Or.inr (Or.inr (Or.inr (mem_keys_optEntryB h))))

/-- A successful association-list lookup exhibits a member of the list. -/
theorem lookup_mem : ∀ {l : List (String × OptVal)} {k : String} {v : OptVal},
    l.lookup k = some v → (k, v) ∈ l := by
  intro l
  induction l with
  | nil => intro k v h; simp [List.lookup] at h
  | cons kv rest ih =>
    intro k v h
    rcases kv with ⟨k1, v1⟩
    by_cases hk : k = k1
    · subst hk
      simp [List.lookup] at h
      subst h
      exact List.mem_cons_self _ _
    · have hb : (k == k1) = false := beq_false_of_ne hk
      simp [List.lookup, hb] at h
      exact List.mem_cons_of_mem _ (ih h)

/-- The key sequence of `dictUpdate` is the base's keys followed by the keys new
in the update. -/
theorem keys_dictUpdate (base upd : List (String × OptVal)) :
    (dictUpdate base upd).map Prod.fst
      = base.map Prod.fst
        ++ (upd.filter (fun kv => (base.lookup kv.1).isNone)).map Prod.fst := by
  unfold dictUpdate
  rw [List.map_append, List.map_map]
  have hf : (Prod.fst ∘ fun kv : String × OptVal =>
      (kv.1, match upd.lookup kv.1 with | some v => v | none => kv.2)) = Prod.fst := by
    funext kv
    rfl
  rw [hf]

/-- Every key bound in the update argument of `dictUpdate` appears among the
keys of the updated dict. -/
theorem mem_keys_dictUpdate_right {j : String} {v : OptVal} {base upd : List (String × OptVal)}
    (h : (j, v) ∈ upd) : j ∈ (dictUpdate base upd).map Prod.fst := by
  rw [keys_dictUpdate, List.mem_append]
  cases hb : base.lookup j with
  | some w =>
    exact Or.inl (List.mem_map.mpr ⟨(j, w), lookup_mem hb, rfl⟩)
  | none =>
    exact Or.inr (List.mem_map.mpr ⟨(j, v), List.mem_filter.mpr ⟨h, by simp [hb]⟩, rfl⟩)

/-- The k-way merge of sorted partitions is sorted. -/
theorem kMerge_sorted : ∀ {parts : List (List Int)},
    (∀ l ∈ parts, List.Sorted (· ≤ ·) l) → List.Sorted (· ≤ ·) (kMerge parts) := by
  intro parts
  induction parts with
  | nil => intro _; simp [kMerge]
  | cons p ps ih =>
    intro h
    have hp := h p (List.mem_cons_self p ps)
    have hps := ih (fun l hl => h l (List.mem_cons_of_mem p hl))
    simpa [kMerge] using List.Sorted.merge hp hps

/-- The k-way merge is a permutation of the concatenated partition inputs. -/
theorem kMerge_perm (parts : List (List Int)) : List.Perm (kMerge parts) parts.flatten := by
  induction parts with
  | nil => simp [kMerge]
  | cons p ps ih =>
    have h1 : List.Perm (kMerge (p :: ps)) (p ++ kMerge ps) := by
      simpa [kMerge] using List.perm_merge (fun a b => decide (a ≤ b)) p (kMerge ps)
    have h2 : List.Perm (p ++ kMerge ps) (p ++ ps.flatten) := List.Perm.append_left p ih
    simpa using h1.trans h2

unseal List.merge in
/-- Claim C1: for every ORDER BY query over multiple partitions whose pages are
each already sorted, draining yields a globally sorted sequence equal to the
k-way merge of the per-partition inputs; for the partitions [1,4,7], [2,3],
[5,6] the drained sequence is [1,2,3,4,5,6,7]. -/
theorem queryExecutor_orderBy_drain (sel : String → List Int) (parts : List (List Int))
    (h : ∀ l ∈ parts, List.Sorted (· ≤ ·) l) :
    (runQuery sel none true true parts).result = Except.ok (kMerge parts) ∧
    List.Sorted (· ≤ ·) (kMerge parts) ∧
    List.Perm (kMerge parts) parts.flatten ∧
    kMerge [[1, 4, 7], [2, 3], [5, 6]] = ([1, 2, 3, 4, 5, 6, 7] : List Int) :=
  ⟨by simp [runQuery], kMerge_sorted h, kMerge_perm parts, rfl⟩

unseal List.merge in
/-- Witness for C1 at the spec's concrete three partitions. -/
theorem queryExecutor_orderBy_drain_witness :
    (∀ l ∈ ([[1, 4, 7], [2, 3], [5, 6]] : List (List Int)), List.Sorted (· ≤ ·) l) ∧
    ((runQuery (fun _ => []) none true true [[1, 4, 7], [2, 3], [5, 6]]).result
        = Except.ok (kMerge [[1, 4, 7], [2, 3], [5, 6]]) ∧
      List.Sorted (· ≤ ·) (kMerge [[1, 4, 7], [2, 3], [5, 6]]) ∧
      List.Perm (kMerge [[1, 4, 7], [2, 3], [5, 6]])
        ([[1, 4, 7], [2, 3], [5, 6]] : List (List Int)).flatten ∧
      kMerge [[1, 4, 7], [2, 3], [5, 6]] = ([1, 2, 3, 4, 5, 6, 7] : List Int)) :=
  ⟨by decide, queryExecutor_orderBy_drain (fun _ => []) [[1, 4, 7], [2, 3], [5, 6]] (by decide)⟩

/-- Claim C2: a query issued without an explicit partition key and without
cross-partition execution enabled fails with CrossPartitionRequired and issues
zero Transport calls. -/
theorem crossPartition_guard (sel : String → List Int) (parts : List (List Int))
    (order_by : Bool) (pk : Option String) (ecp : Bool)
    (hpk : pk = none) (hecp : ecp = false) :
    (runQuery sel pk ecp order_by parts).result
        = Except.error QueryFailure.crossPartitionRequired ∧
    (runQuery sel pk ecp order_by parts).transportCalls = 0 := by
  subst hpk hecp
  constructor <;> simp [runQuery]

/-- Witness for C2 at a concrete query over two partitions. -/
theorem crossPartition_guard_witness :
    ((none : Option String) = none ∧ false = false) ∧
    ((runQuery (fun _ => []) none false true [[1], [2]]).result
        = Except.error QueryFailure.crossPartitionRequired ∧
     (runQuery (fun _ => []) none false true [[1], [2]]).transportCalls = 0) :=
  ⟨⟨rfl, rfl⟩, crossPartition_guard (fun _ => []) [[1], [2]] true none false rfl rfl⟩

/-- Counterexample to claim C3: the code replaces a stored session token with
whatever token the response carries, even one older than the stored one.
Reading token "1" while "2" is stored leaves "1" stored, not the claimed
unchanged "2". -/
theorem sessionTracker_rollback_counterexample :
    get_item_observe (some "2") [("x-ms-session-token", "1")] = some "1" ∧
    ¬ get_item_observe (some "2") [("x-ms-session-token", "1")] = some "2" := by
  decide

/-- Claim C3 (amended): the tracked session token is last-observed-wins, not
monotonic. Any token carried by a response replaces the stored one regardless
of relative age (so observing a newer token does store it); `get_item` keeps
the stored token only when the response carries none, and `query_items`
unconditionally stores the response token it demands. -/
theorem sessionTracker_last_observed_wins (stored : Option String) (t : String)
    (rest : List (String × String)) (items : List Int) :
    get_item_observe stored (("x-ms-session-token", t) :: rest) = some t ∧
    get_item_observe stored [] = stored ∧
    query_items_finish (("x-ms-session-token", t) :: rest) items = Except.ok (t, items) := by
  refine ⟨?_, rfl, ?_⟩ <;>
    simp [get_item_observe, query_items_finish, headerLookup, List.lookup]

/-- Claim C4: an option absent from the per-call overrides (the only option
source the facade composes; there are no session defaults) never appears in the
composed option set handed to Transport — absence is preserved as absence, for
both `Container.query_items` and `CosmosClient.get_database`. -/
theorem requestOptions_absence_preserved (o : QueryItemsOptions) (g : GetDatabaseOptions) :
    (o.disable_ru_per_minute_usage = none →
      "disableRUPerMinuteUsage" ∉ (composeQueryItems o).map Prod.fst) ∧
    (o.enable_cross_partition_query = none →
      "enableCrossPartitionQuery" ∉ (composeQueryItems o).map Prod.fst) ∧
    (o.max_degree_parallelism = none →
      "maxDegreeOfParallelism" ∉ (composeQueryItems o).map Prod.fst) ∧
    (o.max_item_count = none →
      "maxItemCount" ∉ (composeQueryItems o).map Prod.fst) ∧
    (o.session_token = none →
      "sessionToken" ∉ (composeQueryItems o).map Prod.fst) ∧
    (o.initial_headers = none →
      "initialHeaders" ∉ (composeQueryItems o).map Prod.fst) ∧
    (o.populate_query_metrics = none →
      "populateQueryMetrics" ∉ (composeQueryItems o).map Prod.fst) ∧
    (g.disable_ru_per_minute_usage = none →
      "disableRUPerMinuteUsage" ∉ (composeGetDatabase g).map Prod.fst) ∧
    (g.session_token = none →
      "sessionToken" ∉ (composeGetDatabase g).map Prod.fst) ∧
    (g.initial_headers = none →
      "initialHeaders" ∉ (composeGetDatabase g).map Prod.fst) ∧
    (g.populate_query_metrics = none →
      "populateQueryMetrics" ∉ (composeGetDatabase g).map Prod.fst) := by
  refine ⟨?_, ?_, ?_, ?_, ?_, ?_, ?_, ?_, ?_, ?_, ?_⟩ <;> intro hn hmem
  · rcases mem_keys_composeQueryItems hmem with
      ⟨he, hne⟩ | ⟨he, hne⟩ | ⟨he, hne⟩ | ⟨he, hne⟩ | ⟨he, hne⟩ | ⟨he, hne⟩ | ⟨he, hne⟩ <;>
      first
      | exact hne hn
      | exact absurd he (by decide)
  · rcases mem_keys_composeQueryItems hmem with
      ⟨he, hne⟩ | ⟨he, hne⟩ | ⟨he, hne⟩ | ⟨he, hne⟩ | ⟨he, hne⟩ | ⟨he, hne⟩ | ⟨he, hne⟩ <;>
      first
      | exact hne hn
      | exact absurd he (by decide)
  · rcases mem_keys_composeQueryItems hmem with
      ⟨he, hne⟩ | ⟨he, hne⟩ | ⟨he, hne⟩ | ⟨he, hne⟩ | ⟨he, hne⟩ | ⟨he, hne⟩ | ⟨he, hne⟩ <;>
      first
      | exact hne hn
      | exact absurd he (by decide)
  · rcases mem_keys_composeQueryItems hmem with
      ⟨he, hne⟩ | ⟨he, hne⟩ | ⟨he, hne⟩ | ⟨he, hne⟩ | ⟨he, hne⟩ | ⟨he, hne⟩ | ⟨he, hne⟩ <;>
      first
      | exact hne hn
      | exact absurd he (by decide)
  · rcases mem_keys_composeQueryItems hmem with
      ⟨he, hne⟩ | ⟨he, hne⟩ | ⟨he, hne⟩ | ⟨he, hne⟩ | ⟨he, hne⟩ | ⟨he, hne⟩ | ⟨he, hne⟩ <;>
      first
      | exact hne hn
      | exact absurd he (by decide)
  · rcases mem_keys_composeQueryItems hmem with
      ⟨he, hne⟩ | ⟨he, hne⟩ | ⟨he, hne⟩ | ⟨he, hne⟩ | ⟨he, hne⟩ | ⟨he, hne⟩ | ⟨he, hne⟩ <;>
      first
      | exact hne hn
      | exact absurd he (by decide)
  · rcases mem_keys_composeQueryItems hmem with
      ⟨he, hne⟩ | ⟨he, hne⟩ | ⟨he, hne⟩ | ⟨he, hne⟩ | ⟨he, hne⟩ | ⟨he, hne⟩ | ⟨he, hne⟩ <;>
      first
      | exact hne hn
      | exact absurd he (by decide)
  · rcases mem_keys_composeGetDatabase hmem with
      ⟨he, hne⟩ | ⟨he, hne⟩ | ⟨he, hne⟩ | ⟨he, hne⟩ <;>
      first
      | exact hne hn
      | exact absurd he (by decide)
  · rcases mem_keys_composeGetDatabase hmem with
      ⟨he, hne⟩ | ⟨he, hne⟩ | ⟨he, hne⟩ | ⟨he, hne⟩ <;>
      first
      | exact hne hn
      | exact absurd he (by decide)
  · rcases mem_keys_composeGetDatabase hmem with
      ⟨he, hne⟩ | ⟨he, hne⟩ | ⟨he, hne⟩ | ⟨he, hne⟩ <;>
      first
      | exact hne hn
      | exact absurd he (by decide)
  · rcases mem_keys_composeGetDatabase hmem with
      ⟨he, hne⟩ | ⟨he, hne⟩ | ⟨he, hne⟩ | ⟨he, hne⟩ <;>
      first
      | exact hne hn
      | exact absurd he (by decide)

/-- Witness for C4 at the all-absent option records. -/
theorem requestOptions_absence_preserved_witness :
    ("disableRUPerMinuteUsage" ∉
      (composeQueryItems (QueryItemsOptions.mk none none none none none none none)).map
        Prod.fst) ∧
    ("enableCrossPartitionQuery" ∉
      (composeQueryItems (QueryItemsOptions.mk none none none none none none none)).map
        Prod.fst) ∧
    ("maxDegreeOfParallelism" ∉
      (composeQueryItems (QueryItemsOptions.mk none none none none none none none)).map
        Prod.fst) ∧
    ("maxItemCount" ∉
      (composeQueryItems (QueryItemsOptions.mk none none none none none none none)).map
        Prod.fst) ∧
    ("sessionToken" ∉
      (composeQueryItems (QueryItemsOptions.mk none none none none none none none)).map
        Prod.fst) ∧
    ("initialHeaders" ∉
      (composeQueryItems (QueryItemsOptions.mk none none none none none none none)).map
        Prod.fst) ∧
    ("populateQueryMetrics" ∉
      (composeQueryItems (QueryItemsOptions.mk none none none none none none none)).map
        Prod.fst) ∧
    ("disableRUPerMinuteUsage" ∉
      (composeGetDatabase (GetDatabaseOptions.mk none none none none)).map Prod.fst) ∧
    ("sessionToken" ∉
      (composeGetDatabase (GetDatabaseOptions.mk none none none none)).map Prod.fst) ∧
    ("initialHeaders" ∉
      (composeGetDatabase (GetDatabaseOptions.mk none none none none)).map Prod.fst) ∧
    ("populateQueryMetrics" ∉
      (composeGetDatabase (GetDatabaseOptions.mk none none none none)).map Prod.fst) := by
  have h := requestOptions_absence_preserved
    (QueryItemsOptions.mk none none none none none none none)
    (GetDatabaseOptions.mk none none none none)
  exact ⟨h.1 rfl, h.2.1 rfl, h.2.2.1 rfl, h.2.2.2.1 rfl, h.2.2.2.2.1 rfl,
    h.2.2.2.2.2.1 rfl, h.2.2.2.2.2.2.1 rfl, h.2.2.2.2.2.2.2.1 rfl,
    h.2.2.2.2.2.2.2.2.1 rfl, h.2.2.2.2.2.2.2.2.2.1 rfl, h.2.2.2.2.2.2.2.2.2.2 rfl⟩

/-- Counterexample to claim C5: with `fail_if_exists=False`, a transport
failure with status 500 on the create call is not surfaced; the call silently
falls back to the `get_database` read. -/
theorem create_database_swallows_500 :
    create_database false (Except.error 500) (Except.ok "db")
        = Except.ok (CreateDbOutcome.readFallback "db") ∧
    ¬ create_database false (Except.error 500) (Except.ok "db")
        = Except.error 500 := by
  decide

/-- Claim C5 (amended): `create_database` re-raises a create failure only when
`fail_if_exists` is set and the status is a 409 conflict; every other create
failure — any status with `fail_if_exists=False`, and any non-409 status even
with `fail_if_exists=True` — is swallowed and the call falls back to
`get_database`, whose own outcome (including its failure) is returned. A
successful create is returned as the created database. -/
theorem create_database_propagation (fie : Bool) (s : Nat) (r : Except Nat String)
    (d : String) (h : fie = false ∨ s ≠ 409) :
    create_database fie (Except.error s) r = r.map CreateDbOutcome.readFallback ∧
    create_database true (Except.error 409) r = Except.error 409 ∧
    create_database fie (Except.ok d) r = Except.ok (CreateDbOutcome.created d) := by
  refine ⟨?_, by simp [create_database], rfl⟩
  rcases h with h | h
  · subst h
    simp [create_database]
  · simp [create_database, h]

/-- Witness for C5 at a 500 create failure with `fail_if_exists=False`. -/
theorem create_database_propagation_witness :
    ((false = false ∨ (500 : Nat) ≠ 409) ∧
     (create_database false (Except.error 500) (Except.ok "x")
        = (Except.ok "x" : Except Nat String).map CreateDbOutcome.readFallback ∧
      create_database true (Except.error 409) (Except.ok "x") = Except.error 409 ∧
      create_database false (Except.ok "y") (Except.ok "x")
        = Except.ok (CreateDbOutcome.created "y"))) :=
  ⟨Or.inl rfl, create_database_propagation false 500 (Except.ok "x") "y" (Or.inl rfl)⟩

/-- Claim C6, evaluated on the code: `set_container_properties` with
`default_ttl` unset evaluates `int(None)` and raises `TypeError` instead of
completing with the field omitted; `set_container_properties` with
`default_ttl=0` does send `defaultTtl: 0`; but `create_container` with
`default_ttl=0` omits the field because `if default_ttl:` treats 0 as falsy. -/
theorem default_ttl_code_behavior :
    setContainerPropertiesParams "c" none none none none = Except.error PyErr.typeError ∧
    setContainerPropertiesParams "c" none none (some 0) none
        = Except.ok [("id", OptVal.s "c"), ("defaultTtl", OptVal.i 0)] ∧
    ¬ "defaultTtl" ∈ (createContainerDefinition "c" none none (some 0)).map Prod.fst := by
  decide

/-- Counterexample to claim C7: the prototype's `Database.create_container`
copies an unrecognized option key straight into the container definition handed
to Transport instead of rejecting it. -/
theorem unknown_option_passed_through :
    "bogusOption" ∈
      (prototypeCreateContainerDefinition "c" [("bogusOption", OptVal.b true)]).map
        Prod.fst := by
  decide

/-- Claim C7 (amended): the azure.cosmos facade's option set is closed — every
key of a composed `create_container` option set is one of the five enumerated
options — but the prototype's `Database.create_container` forwards every
keyword argument, recognized or not, into the container definition handed to
Transport. -/
theorem optionSet_closed_vs_passthrough (o : CreateContainerOptions) (id j j2 : String)
    (v : OptVal) (kwargs : List (String × OptVal))
    (hj : j ∈ (composeCreateContainer o).map Prod.fst)
    (hk : (j2, v) ∈ kwargs) :
    j ∈ ["disableRUPerMinuteUsage", "sessionToken", "initialHeaders", "accessCondition",
        "populateQueryMetrics"] ∧
    j2 ∈ (prototypeCreateContainerDefinition id kwargs).map Prod.fst := by
  constructor
  · rcases mem_keys_composeCreateContainer hj with h | h | h | h | h <;> simp [h]
  · exact mem_keys_dictUpdate_right hk

/-- Witness for C7 at a concrete option record and a bogus keyword argument. -/
theorem optionSet_closed_vs_passthrough_witness :
    ("sessionToken" ∈ (composeCreateContainer
        (CreateContainerOptions.mk none (some "tok") none none none)).map Prod.fst ∧
     ("bogusOption", OptVal.b true) ∈ [("bogusOption", OptVal.b true)]) ∧
    ("sessionToken" ∈ ["disableRUPerMinuteUsage", "sessionToken", "initialHeaders",
        "accessCondition", "populateQueryMetrics"] ∧
     "bogusOption" ∈ (prototypeCreateContainerDefinition "c"
        [("bogusOption", OptVal.b true)]).map Prod.fst) :=
  ⟨⟨by decide, by decide⟩,
   optionSet_closed_vs_passthrough (CreateContainerOptions.mk none (some "tok") none none none)
     "c" "sessionToken" "bogusOption" (OptVal.b true) [("bogusOption", OptVal.b true)]
     (by decide) (by decide)⟩

/-- Counterexample to claim C8: link construction never fails. An empty child
id and an id containing a path separator are interpolated into the link
verbatim instead of failing with InvalidIdentity. -/
theorem link_construction_no_failure :
    get_database_link (DatabaseRef.byId "") = "dbs/" ∧
    get_database_link (DatabaseRef.byId "a/b") = "dbs/a/b" ∧
    get_document_link "dbs/d/colls/c" (ItemRef.byId "") = "dbs/d/colls/c/docs/" :=
  ⟨rfl, rfl, rfl⟩

/-- Claim C8 (amended): link construction performs no validation — any id,
empty or separator-containing, is interpolated verbatim — and for all inputs it
is a pure, deterministic function of (parent, child): equal inputs give equal
links and, for raw ids under a fixed parent, distinct ids give distinct links. -/
theorem link_construction_pure (a b coll : String) :
    get_database_link (DatabaseRef.byId a) = "dbs/" ++ a ∧
    get_document_link coll (ItemRef.byId a) = coll ++ "/docs/" ++ a ∧
    (get_database_link (DatabaseRef.byId a) = get_database_link (DatabaseRef.byId b)
      ↔ a = b) := by
  refine ⟨rfl, rfl, ⟨fun h => ?_, fun h => by rw [h]⟩⟩
  have h2 := congrArg String.data h
  simp [get_database_link, String.data_append] at h2
  exact String.ext h2

/-- Claim C9: when the response headers lack "x-ms-session-token",
`query_items` raises a KeyError before any iterator is returned, while
`get_item` under the same condition returns normally and leaves the stored
session token unchanged. -/
theorem query_items_missing_token (stored : Option String)
    (headers : List (String × String)) (items : List Int)
    (h : headerLookup headers "x-ms-session-token" = none) :
    query_items_finish headers items = Except.error PyKeyErr.keyError ∧
    get_item_observe stored headers = stored := by
  constructor <;> simp [query_items_finish, get_item_observe, h]

/-- Witness for C9 at a header set lacking the session-token key. -/
theorem query_items_missing_token_witness :
    headerLookup [("x-ms-request-charge", "1")] "x-ms-session-token" = none ∧
    (query_items_finish [("x-ms-request-charge", "1")] [3] = Except.error PyKeyErr.keyError ∧
     get_item_observe (some "t0") [("x-ms-request-charge", "1")] = some "t0") :=
  ⟨by decide, query_items_missing_token (some "t0") [("x-ms-request-charge", "1")] [3]
    (by decide)⟩

/-- Claim C10: the `query` argument of the prototype's `list_containers` and
mock_two's `list_collections` has no effect — every value yields exactly the
sequence produced from the unfiltered ReadContainers transport call, the same
as passing no query. -/
theorem list_containers_query_ignored (q : Option String) (rc : List String) :
    list_containers q rc = list_containers none rc ∧
    list_collections q rc = list_collections none rc ∧
    list_containers q rc = rc.map ProtoContainer.mk := by
  refine ⟨?_, rfl, ?_⟩ <;> simp [list_containers]

end Cosmos
